import Mathlib

/-!
# Verification of the SFC session store and route guard

Shallow embedding of the authentication/session lifecycle of the SFC
frontend (`src/store/auth.ts`), the route guard
(`src/app/(main)/layout.tsx`) and the signup form validation
(`SignupPage.validateForm`).

Backend responses are passed in explicitly as oracle arguments: each
network call consumes one response value.  Every outbound call goes
through the `request` function of the HTTP client adapter
(`src/lib/api.ts`, embedded with `src/app/admin/page.tsx` in the
sources): `fetch` and body parsing run inside a `try/catch` whose catch
returns a network-error result, and `response.json().catch(() => null)`
swallows parse failures, so `request` always RETURNS a plain
`ApiResponse` value — `{data}`, `{error: {message, code?}}`, or
`{data: null}` when an ok response had an unparseable body — and never
lets an exception escape.  A response as the store sees it is therefore
the three-valued `Resp` (`ok`, `err`, or `nodata` for the null-data
case, on which the store code branches explicitly), and `Resp` values
arise as `request` applied to a `TransportOutcome`.  Because `request`
never throws, the `try/catch` wrappers in the store guard dead paths
and are elided.

A ghost `trace` field records every network call an operation performs,
so that "makes zero network calls" and "the consents are sent to the
backend" become statements about the trace.
-/

namespace SFC

/-- Error shape returned by the HTTP adapter: a human-readable message
and an optional machine-readable code. -/
structure ApiError where
  message : String
  code : Option String := none
  deriving DecidableEq, Repr

/-- Result of one network call as seen by the store: `{data}` (`ok`),
`{error}` (`err`), or a result carrying neither field (`nodata`). -/
inductive Resp (α : Type) where
  | ok (data : α)
  | err (e : ApiError)
  | nodata
  deriving DecidableEq, Repr

/-- Holds (`true`) iff the response carries a `data` field. -/
def Resp.hasData {α : Type} : Resp α → Bool
  | .ok _ => true
  | _ => false

/-- What the transport layer inside the adapter's `request` can do on
one call: deliver an ok response whose body parses as the payload;
deliver an ok response whose body fails to parse, which
`response.json().catch(() => null)` turns into `{ data: null }`;
deliver a non-ok response, whose message and code `request` extracts
from the body (`data?.detail?.message || data?.detail || data?.message
|| "An error occurred"` and `data?.detail?.code || data?.code`, carried
here already extracted, since no store branch inspects them further);
or reject (`fetch` throwing), which lands in `request`'s catch. -/
inductive TransportOutcome (α : Type) where
  | success (data : α)
  | successNullBody
  | httpError (message : String) (code : Option String)
  | thrown (info : String)
  deriving DecidableEq, Repr

/-- The adapter's `request<T>` as a function of the transport outcome:
every branch — including a thrown exception, which the `catch` converts
into the network-error result — RETURNS an `ApiResponse` value, so
`request` is total and no exception crosses the adapter boundary. -/
def request {α : Type} : TransportOutcome α → Resp α
  | .success d => .ok d
  | .successNullBody => .nodata
  | .httpError m c => .err { message := m, code := c }
  | .thrown _ =>
    .err { message := "Network error. Please check your connection." }

/-- User role, from the `User` interface in `src/store/auth.ts`. -/
inductive Role where
  | member
  | admin
  deriving DecidableEq, Repr

/-- The `User` interface of `src/store/auth.ts`. -/
structure User where
  id : String
  email : String
  role : Role
  is_active : Bool
  is_verified : Bool
  created_at : String
  deriving DecidableEq, Repr

/-- The `UserProfile` interface of `src/lib/api.ts` (embedded with
`src/app/admin/page.tsx`) carries many optional onboarding-answer
fields; the session store only inspects
`profile?.onboarding_completed_at` (in `setProfile`), so the model keeps
exactly that optional field and treats the rest as opaque. -/
structure UserProfile where
  onboarding_completed_at : Option String := none
  deriving DecidableEq, Repr

/-- Credential pair returned by signin / verify-otp / refresh: the
`authApi` payload type `{ access_token, refresh_token, expires_in }`. -/
structure TokenPair where
  access_token : String
  refresh_token : String
  expires_in : Nat := 0
  deriving DecidableEq, Repr

/-- Payload of `GET /auth/status`: identity plus the onboarding flag. -/
structure StatusData where
  user : User
  onboarding_completed : Bool
  deriving DecidableEq, Repr

/-- Payload of `POST /auth/signup`. -/
structure SignupData where
  user_id : String
  deriving DecidableEq, Repr

/-- A stored cookie: its value and the optional `expires` attribute in
days (`none` = session cookie, no expiry attribute). -/
structure Cookie where
  value : String
  expires : Option Nat := none
  deriving DecidableEq, Repr

/-- The two token cookies (`js-cookie` storage visible to the store). -/
structure Cookies where
  access : Option Cookie := none
  refresh : Option Cookie := none
  deriving DecidableEq, Repr

/-- Session state fields of `AuthState` in `src/store/auth.ts`. -/
structure Session where
  user : Option User := none
  profile : Option UserProfile := none
  isAuthenticated : Bool := false
  isLoading : Bool := true
  hasCompletedOnboarding : Bool := false
  deriving DecidableEq, Repr

/-- Ghost record of one outbound network call (endpoint plus the payload
fields the claims talk about). -/
inductive ApiCall where
  | signin
  | signupCall (privacy_consent : Bool) (data_processing_consent : Bool)
      (marketing_consent : Option Bool)
  | verifyOtpCall
  | status
  | refreshCall (refresh_token : String)
  | revoke (refresh_token : String)
  | getProfile
  deriving DecidableEq, Repr

/-- Whole observable state: session store, cookie jar, and the ghost
trace of network calls made so far. -/
structure World where
  session : Session := {}
  cookies : Cookies := {}
  trace : List ApiCall := []
  deriving DecidableEq, Repr

/-- Initial store state (`create` in `src/store/auth.ts`):
`user: null, profile: null, isAuthenticated: false, isLoading: true,
hasCompletedOnboarding: false`. -/
def initialSession : Session :=
  { user := none, profile := none, isAuthenticated := false,
    isLoading := true, hasCompletedOnboarding := false }

/-- Append one network call to the ghost trace. -/
def pushCall (c : ApiCall) (w : World) : World :=
  { w with trace := w.trace ++ [c] }

/-- Action `setUser`: `set({ user, isAuthenticated: !!user })`. -/
def setUser (u : Option User) (w : World) : World :=
  { w with session :=
    { w.session with
      user := u
      isAuthenticated := u.isSome } }

/-- Action `setProfile`: `set({ profile, hasCompletedOnboarding:
!!profile?.onboarding_completed_at })`. -/
def setProfile (p : Option UserProfile) (w : World) : World :=
  { w with session :=
    { w.session with
      profile := p
      hasCompletedOnboarding := (p.bind (·.onboarding_completed_at)).isSome } }

/-- Action `setLoading`: `set({ isLoading })`.  Also models the bare
`set({ isLoading: ... })` calls inside `checkAuth`. -/
def setLoading (b : Bool) (w : World) : World :=
  { w with session := { w.session with isLoading := b } }

def TOKEN_EXPIRY_DAYS_REMEMBER : Nat := 30

def TOKEN_EXPIRY_DAYS_SESSION : Nat := 1

/-- Result shape of `login` / `verifyOtp`. -/
structure LoginResult where
  success : Bool
  error : Option String := none
  requiresOnboarding : Option Bool := none
  deriving DecidableEq, Repr

/-- Operation `login(email, password, rememberMe)`.  Oracle arguments: the signin
response, the status response, and the profile response (used only when
onboarding is completed). -/
def login (signinResp : Resp TokenPair) (statusResp : Resp StatusData)
    (profileResp : Resp UserProfile) (rememberMe : Bool) (w : World) :
    World × LoginResult :=
  let w := pushCall .signin w
  match signinResp with
  | .err e => (w, { success := false, error := some e.message })
  | .nodata => (w, { success := false, error := some "Login failed" })
  | .ok data =>
    let expiryDays := if rememberMe then TOKEN_EXPIRY_DAYS_REMEMBER
                      else TOKEN_EXPIRY_DAYS_SESSION
    let w := { w with cookies :=
      { access := some { value := data.access_token, expires := some expiryDays },
        refresh := some { value := data.refresh_token, expires := some expiryDays } } }
    let w := pushCall .status w
    match statusResp with
    | .ok sd =>
      let w := { w with session :=
        { w.session with
          user := some sd.user
          isAuthenticated := true
          hasCompletedOnboarding := sd.onboarding_completed } }
      let w :=
        if sd.onboarding_completed then
          let w := pushCall .getProfile w
          match profileResp with
          | .ok p => { w with session := { w.session with profile := some p } }
          | _ => w
        else w
      (w, { success := true, requiresOnboarding := some (!sd.onboarding_completed) })
    | _ => (w, { success := false, error := some "Login failed" })

/-- Consent booleans passed to `signup`. -/
structure Consents where
  privacy : Bool
  dataProcessing : Bool
  marketing : Option Bool := none
  deriving DecidableEq, Repr

/-- Result shape of `signup`. -/
structure SignupResult where
  success : Bool
  error : Option String := none
  userId : Option String := none
  deriving DecidableEq, Repr

/-- Operation `signup(email, password, consents)`: forwards the consent booleans
to the backend unconditionally; no client-side consent validation
happens here. -/
def signup (resp : Resp SignupData) (consents : Consents) (w : World) :
    World × SignupResult :=
  let w := pushCall
    (.signupCall consents.privacy consents.dataProcessing consents.marketing) w
  match resp with
  | .err e => (w, { success := false, error := some e.message })
  | .ok d => (w, { success := true, userId := some d.user_id })
  | .nodata => (w, { success := false, error := some "Signup failed" })

/-- Operation `verifyOtp(email, code, rememberMe)`: same post-success status fetch
as `login`, but no eager profile fetch. -/
def verifyOtp (otpResp : Resp TokenPair) (statusResp : Resp StatusData)
    (rememberMe : Bool) (w : World) : World × LoginResult :=
  let w := pushCall .verifyOtpCall w
  match otpResp with
  | .err e => (w, { success := false, error := some e.message })
  | .nodata => (w, { success := false, error := some "Verification failed" })
  | .ok data =>
    let expiryDays := if rememberMe then TOKEN_EXPIRY_DAYS_REMEMBER
                      else TOKEN_EXPIRY_DAYS_SESSION
    let w := { w with cookies :=
      { access := some { value := data.access_token, expires := some expiryDays },
        refresh := some { value := data.refresh_token, expires := some expiryDays } } }
    let w := pushCall .status w
    match statusResp with
    | .ok sd =>
      let w := { w with session :=
        { w.session with
          user := some sd.user
          isAuthenticated := true
          hasCompletedOnboarding := sd.onboarding_completed } }
      (w, { success := true, requiresOnboarding := some (!sd.onboarding_completed) })
    | _ => (w, { success := false, error := some "Verification failed" })

/-- Operation `logout()`: best-effort revoke (response discarded), remove both
cookies, reset the session.  The revoke response is an oracle argument;
it is ignored, matching the source, and since `authApi.logout` is
`request`, which catches every exception it could encounter, the awaited
call always yields a value, so `logout` is total. -/
def logout (revokeResp : Resp Unit) (w : World) : World :=
  let w :=
    match w.cookies.refresh with
    | some c =>
      let w := pushCall (.revoke c.value) w
      let _ := revokeResp
      w
    | none => w
  { w with
    cookies := { access := none, refresh := none }
    session :=
    { w.session with
      user := none
      profile := none
      isAuthenticated := false
      hasCompletedOnboarding := false } }

/-- Operation `refreshAuth()`: with no refresh token, returns `false` at once;
otherwise exchanges the token, rotating both cookies with no `expires`
attribute on success, and invoking `logout()` on failure. -/
def refreshAuth (refreshResp : Resp TokenPair) (revokeResp : Resp Unit)
    (w : World) : World × Bool :=
  match w.cookies.refresh with
  | none => (w, false)
  | some c =>
    let w := pushCall (.refreshCall c.value) w
    match refreshResp with
    | .ok data =>
      ({ w with cookies :=
        { access := some { value := data.access_token, expires := none },
          refresh := some { value := data.refresh_token, expires := none } } },
       true)
    | _ => (logout revokeResp w, false)

/-- Oracle responses consumed by one recursion level of `checkAuth`: the
status response, and the refresh / revoke / profile responses used on
the respective branches of that level. -/
structure Round where
  status : Resp StatusData
  refresh : Resp TokenPair := .nodata
  revoke : Resp Unit := .nodata
  profile : Resp UserProfile := .nodata
  deriving DecidableEq, Repr

/-- Operation `checkAuth()`: one list element per recursion level.  Returns `none`
when the oracle list is exhausted while a further status query would be
made (so a periodic error-then-successful-refresh backend is `none` for
every finite oracle: the recursion does not come to an end on its own).
The `finally` block is modelled by applying `setLoading false` to the
result of the `try` body on every path out of it. -/
def checkAuth (rounds : List Round) (w : World) : Option World :=
  let w := setLoading true w
  match w.cookies.access with
  | none => some (setLoading false w)
  | some _ =>
    match rounds with
    | [] => none
    | r :: rest =>
      let w := pushCall .status w
      let res : Option World :=
        match r.status with
        | .err _ =>
          let p := refreshAuth r.refresh r.revoke w
          if p.2 then checkAuth rest p.1
          else some (setLoading false p.1)
        | .ok d =>
          let w := { w with session :=
            { w.session with
              user := some d.user
              isAuthenticated := true
              hasCompletedOnboarding := d.onboarding_completed } }
          let w :=
            if d.onboarding_completed then
              let w := pushCall .getProfile w
              match r.profile with
              | .ok p => { w with session := { w.session with profile := some p } }
              | _ => w
            else w
          some w
        | .nodata => some w
      res.map (setLoading false)

/-! ## Route guard (`src/app/(main)/layout.tsx`) -/

/-- Embeds `const protectedRoutes = ["/dashboard", "/profile", "/onboarding"]`. -/
def protectedRoutes : List String := ["/dashboard", "/profile", "/onboarding"]

/-- Embeds `protectedRoutes.some((route) => pathname.startsWith(route))`.
JavaScript `startsWith` is the character-level prefix test, embedded
here on the character lists of the strings. -/
def isProtectedRoute (pathname : String) : Bool :=
  protectedRoutes.any (fun route => route.toList.isPrefixOf pathname.toList)

/-- Redirect decision of the guard effect: none, to the login page
(carrying the attempted path as the `redirect` query parameter, URI
encoding elided), or to the onboarding page. -/
inductive Redirect where
  | stay
  | toLogin (redirectTarget : String)
  | toOnboarding
  deriving DecidableEq, Repr

/-- The redirect `useEffect` of `MainLayout`: returns early while
`isLoading`; else redirects protected routes for unauthenticated users
to login, and authenticated-but-not-onboarded users on protected routes
(other than `/onboarding` itself) to onboarding. -/
def guardEffect (pathname : String) (isAuthenticated isLoading
    hasCompletedOnboarding : Bool) : Redirect :=
  if isLoading then .stay
  else if isProtectedRoute pathname && !isAuthenticated then .toLogin pathname
  else if isAuthenticated && !hasCompletedOnboarding &&
      pathname != "/onboarding" && isProtectedRoute pathname then .toOnboarding
  else .stay

/-- What `MainLayout` renders. -/
inductive RenderState where
  | loadingSpinner
  | layout
  deriving DecidableEq, Repr

/-- The render branch of `MainLayout`: the loading spinner is shown only
when `isLoading` holds AND the path is a protected route. -/
def mainLayoutRender (pathname : String) (isLoading : Bool) : RenderState :=
  if isLoading && isProtectedRoute pathname then .loadingSpinner else .layout

/-! ## Signup form validation (`SignupPage`) -/

/-- Character class `[^\s@]` of the email regular expression. -/
def emailAtomChar (c : Char) : Bool :=
  !c.isWhitespace && c != '@'

/-- Exact matcher for the anchored email regular expression of
`validateForm`: one or more non-space non-at characters, an at sign,
then one or more such characters containing a dot at an interior
position (the part before some dot and the part after it both
nonempty).  Since the character class excludes the at sign, the single
at of the pattern is necessarily the first at of the string. -/
def emailRegexAccepts (s : String) : Bool :=
  let cs := s.toList
  let a := cs.takeWhile (fun c => c != '@')
  match cs.dropWhile (fun c => c != '@') with
  | '@' :: r =>
    !a.isEmpty && a.all emailAtomChar && r.all emailAtomChar &&
      ((r.drop 1).dropLast.contains '.')
  | _ => false

/-- The signup form fields validated by `SignupPage.validateForm`. -/
structure SignupFormData where
  email : String := ""
  password : String := ""
  confirmPassword : String := ""
  privacyConsent : Bool := false
  dataProcessingConsent : Bool := false
  marketingConsent : Bool := false
  deriving DecidableEq, Repr

/-- The `newErrors` record built by `validateForm`: at most one message
per field. -/
structure FormErrors where
  email : Option String := none
  password : Option String := none
  confirmPassword : Option String := none
  privacyConsent : Option String := none
  dataProcessingConsent : Option String := none
  deriving DecidableEq, Repr

/-- Embeds `SignupPage.validateForm`, field by field. -/
def validateForm (f : SignupFormData) : FormErrors :=
  { email :=
      if f.email = "" then some "Email is required"
      else if !emailRegexAccepts f.email then some "Please enter a valid email"
      else none
    password :=
      if f.password = "" then some "Password is required"
      else if f.password.length < 8 then
        some "Password must be at least 8 characters"
      else none
    confirmPassword :=
      if f.password != f.confirmPassword then some "Passwords do not match"
      else none
    privacyConsent :=
      if !f.privacyConsent then some "You must accept the privacy policy"
      else none
    dataProcessingConsent :=
      if !f.dataProcessingConsent then
        some "You must accept data processing terms"
      else none }

/-- Embeds `Object.keys(newErrors).length === 0`: no field holds an error. -/
def FormErrors.noErrors (e : FormErrors) : Bool :=
  e.email.isNone && e.password.isNone && e.confirmPassword.isNone &&
    e.privacyConsent.isNone && e.dataProcessingConsent.isNone

/-- Embeds `SignupPage.handleSubmit`: validates first; only when validation
passes does it call the store's `signup` (returning its result),
otherwise it returns without any network call. -/
def handleSubmit (signupResp : Resp SignupData) (f : SignupFormData)
    (w : World) : World × Option SignupResult :=
  if (validateForm f).noErrors then
    let p := signup signupResp
      { privacy := f.privacyConsent, dataProcessing := f.dataProcessingConsent,
        marketing := some f.marketingConsent } w
    (p.1, some p.2)
  else (w, none)

/-! ## Reachability, invariant, and concrete inputs -/

/-- The invariant of §3: `isAuthenticated == (user != null)`. -/
def authInv (w : World) : Prop :=
  w.session.isAuthenticated = w.session.user.isSome

/-- One store operation applied with some oracle responses. -/
inductive Step : World → World → Prop where
  | setUserStep (u : Option User) (w : World) : Step w (setUser u w)
  | setProfileStep (p : Option UserProfile) (w : World) : Step w (setProfile p w)
  | setLoadingStep (b : Bool) (w : World) : Step w (setLoading b w)
  | loginStep (r1 : Resp TokenPair) (r2 : Resp StatusData)
      (r3 : Resp UserProfile) (rm : Bool) (w : World) :
      Step w (login r1 r2 r3 rm w).1
  | signupStep (resp : Resp SignupData) (consents : Consents) (w : World) :
      Step w (signup resp consents w).1
  | verifyOtpStep (r1 : Resp TokenPair) (r2 : Resp StatusData) (rm : Bool)
      (w : World) : Step w (verifyOtp r1 r2 rm w).1
  | logoutStep (rv : Resp Unit) (w : World) : Step w (logout rv w)
  | refreshAuthStep (rr : Resp TokenPair) (rv : Resp Unit) (w : World) :
      Step w (refreshAuth rr rv w).1
  | checkAuthStep (rounds : List Round) (w w' : World)
      (h : checkAuth rounds w = some w') : Step w w'

/-- Application start: the initial session (any cookie jar may be left
over from an earlier run). -/
def startWorld (cs : Cookies) : World :=
  { session := initialSession, cookies := cs, trace := [] }

/-- States reachable from application start by store operations. -/
inductive Reaches : World → Prop where
  | init (cs : Cookies) : Reaches (startWorld cs)
  | step {w w' : World} : Reaches w → Step w w' → Reaches w'

/-- A round keeps the `checkAuth` recursion going exactly when the
status query errors and the refresh exchange returns fresh tokens. -/
def roundContinues (r : Round) : Bool :=
  (match r.status with | .err _ => true | _ => false) &&
    (match r.refresh with | .ok _ => true | _ => false)

/-- Number of `POST /auth/refresh` calls in a trace. -/
def refreshCallsCount (t : List ApiCall) : Nat :=
  t.countP (fun c => match c with | .refreshCall _ => true | _ => false)

/-- A concrete user, for concrete executions. -/
def u0 : User :=
  { id := "u-1", email := "a@b.c", role := .member, is_active := true,
    is_verified := true, created_at := "2024-01-01" }

/-- A concrete auth error, as returned by an expired access token. -/
def authErr : ApiError := { message := "Unauthorized", code := some "UNAUTHORIZED" }

/-- A `checkAuth` round whose status query errors and whose refresh
succeeds: the recursion continues past it. -/
def badRound : Round :=
  { status := .err authErr,
    refresh := .ok { access_token := "a1", refresh_token := "r1" },
    revoke := .nodata, profile := .nodata }

/-- A `checkAuth` round whose status query succeeds. -/
def okRound : Round :=
  { status := .ok { user := u0, onboarding_completed := false },
    refresh := .nodata, revoke := .nodata, profile := .nodata }

/-- A started session holding both token cookies. -/
def wTokens : World :=
  startWorld
    { access := some { value := "a0", expires := some 1 },
      refresh := some { value := "r0", expires := some 1 } }

/-- An authenticated session whose refresh cookie is absent (e.g. the
persisted session survived a reload but the cookies expired). -/
def wNoRefreshCookie : World :=
  { session :=
      { user := some u0, profile := none, isAuthenticated := true,
        isLoading := false, hasCompletedOnboarding := true },
    cookies := { access := some { value := "a0", expires := some 30 },
                 refresh := none },
    trace := [] }

/-- An authenticated session with no cookies at all left in storage. -/
def wNoCookies : World :=
  { session :=
      { user := some u0, profile := none, isAuthenticated := true,
        isLoading := true, hasCompletedOnboarding := true },
    cookies := { access := none, refresh := none },
    trace := [] }

/-- A session holding rotated-at-login cookies with the 30-day
remember-me retention. -/
def wRemembered : World :=
  { session :=
      { user := some u0, profile := none, isAuthenticated := true,
        isLoading := false, hasCompletedOnboarding := false },
    cookies := { access := some { value := "a0", expires := some 30 },
                 refresh := some { value := "r0", expires := some 30 } },
    trace := [] }

/-- A signup form whose required consent boxes are both unchecked. -/
def fNoConsents : SignupFormData :=
  { email := "a@b.c", password := "longenough", confirmPassword := "longenough",
    privacyConsent := false, dataProcessingConsent := false,
    marketingConsent := false }

/-! ## Theorems -/

/-- Claim C4: for every prior session state and every transport-level
outcome of the server-side revoke call — success, HTTP error, or even a
rejected `fetch` (`.thrown`), which `request`'s catch converts into a
network-error result so the awaited call yields a value rather than
raising — `logout()` completes, removes both token cookies from
storage, and resets the session to the empty/unauthenticated state
(the revoke result is discarded, so its failure is ignored). -/
theorem logout_resets_session (w : World)
    (revokeOutcome : TransportOutcome Unit) :
    (logout (request revokeOutcome) w).session.user = none ∧
    (logout (request revokeOutcome) w).session.profile = none ∧
    (logout (request revokeOutcome) w).session.isAuthenticated = false ∧
    (logout (request revokeOutcome) w).session.hasCompletedOnboarding = false ∧
    (logout (request revokeOutcome) w).cookies.access = none ∧
    (logout (request revokeOutcome) w).cookies.refresh = none := by
  rcases hr : w.cookies.refresh with _ | c <;> simp [logout, pushCall, hr]

/-- Claim C2 counterexample: with a non-null persisted user and no
refresh cookie, `refreshAuth()` returns `false` but does NOT produce the
logout end-state: the user stays non-null, `isAuthenticated` stays
`true`, and `logout()` is never invoked (the whole state is unchanged,
no revoke call appears in the trace). -/
theorem refreshAuth_no_token_not_logout_cex :
    (refreshAuth .nodata .nodata wNoRefreshCookie).2 = false ∧
    (refreshAuth .nodata .nodata wNoRefreshCookie).1.session.user = some u0 ∧
    (refreshAuth .nodata .nodata wNoRefreshCookie).1.session.isAuthenticated = true ∧
    (refreshAuth .nodata .nodata wNoRefreshCookie).1 = wNoRefreshCookie :=
  ⟨rfl, rfl, rfl, rfl⟩

/-- Claim C2 (amended): `refreshAuth()` with no refresh token in storage
returns `false` immediately without invoking `logout()`: session state,
cookies, and the network trace are left unchanged. -/
theorem refreshAuth_no_token_returns_false (w : World) (rr : Resp TokenPair)
    (rv : Resp Unit) (h : w.cookies.refresh = none) :
    refreshAuth rr rv w = (w, false) := by
  simp [refreshAuth, h]

theorem refreshAuth_no_token_returns_false_witness :
    refreshAuth .nodata .nodata wNoRefreshCookie = (wNoRefreshCookie, false) :=
  refreshAuth_no_token_returns_false wNoRefreshCookie .nodata .nodata rfl

/-- Claim C3 counterexample: from a prior session with
`isAuthenticated = true` (a persisted session whose cookies are gone),
`checkAuth()` with no access token completes with zero network calls and
`isLoading = false`, but `isAuthenticated` remains `true` — it is not
forced to `false` as the claim states. -/
theorem checkAuth_no_token_keeps_session_cex :
    (checkAuth [] wNoCookies).map (fun v => v.session.isAuthenticated) = some true ∧
    (checkAuth [] wNoCookies).map (fun v => v.session.isLoading) = some false ∧
    (checkAuth [] wNoCookies).map (fun v => v.trace.length) = some 0 :=
  ⟨rfl, rfl, rfl⟩

/-- Claim C3 (amended): `checkAuth()` with no access token in storage
completes immediately with `isLoading = false` and zero network calls,
leaving every other session field (including `isAuthenticated`) and the
cookies unchanged from the prior state. -/
theorem checkAuth_no_token_immediate (rounds : List Round) (w : World)
    (h : w.cookies.access = none) :
    checkAuth rounds w =
      some { w with session := { w.session with isLoading := false } } := by
  unfold checkAuth
  simp [setLoading, h]

theorem checkAuth_no_token_immediate_witness :
    checkAuth [] wNoCookies =
      some { wNoCookies with
              session := { wNoCookies.session with isLoading := false } } :=
  checkAuth_no_token_immediate [] wNoCookies rfl

/-- Claim C7 counterexample: on the public path `/` with
`isLoading = true`, `MainLayout` renders the normal layout, not the
loading state — the loading state is rendered only on protected routes
(no redirect is made, as the claim also says). -/
theorem guard_loading_layout_on_public_path_cex :
    mainLayoutRender "/" true = RenderState.layout ∧
    guardEffect "/" false true false = Redirect.stay :=
  ⟨rfl, rfl⟩

/-- Claim C7 (amended): while `isLoading` is true the guard makes no
redirect decision for any path and any auth state; the loading state is
rendered exactly on the protected routes, while other paths render the
normal layout. -/
theorem guard_loading_no_redirect (pathname : String)
    (isAuthenticated hasCompletedOnboarding : Bool) :
    guardEffect pathname isAuthenticated true hasCompletedOnboarding = .stay ∧
    mainLayoutRender pathname true =
      (if isProtectedRoute pathname then .loadingSpinner else .layout) := by
  refine ⟨rfl, ?_⟩
  simp [mainLayoutRender]

/-- Claim C10: a successful `refreshAuth()` modifies only the two token
cookies — every session-state field is unchanged — and the rotated
tokens are written with no `expires` attribute, so the 30-day versus
1-day retention chosen at login is not preserved across rotation. -/
theorem refreshAuth_rotates_cookies_only (w : World) (c : Cookie)
    (tp : TokenPair) (rv : Resp Unit) (h : w.cookies.refresh = some c) :
    refreshAuth (.ok tp) rv w =
      ({ w with
          cookies :=
            { access := some { value := tp.access_token, expires := none },
              refresh := some { value := tp.refresh_token, expires := none } }
          trace := w.trace ++ [ApiCall.refreshCall c.value] }, true) := by
  simp [refreshAuth, pushCall, h]

theorem refreshAuth_rotates_cookies_only_witness :
    refreshAuth (.ok { access_token := "a1", refresh_token := "r1" }) .nodata
        wRemembered =
      ({ wRemembered with
          cookies :=
            { access := some { value := "a1", expires := none },
              refresh := some { value := "r1", expires := none } }
          trace := [ApiCall.refreshCall "r0"] }, true) := by
  simpa using refreshAuth_rotates_cookies_only wRemembered
    { value := "r0", expires := some 30 }
    { access_token := "a1", refresh_token := "r1" } .nodata rfl

/-- Claim C9: when the credential exchange succeeds but the subsequent
status fetch carries no data, `login` (and likewise `verifyOtp`) report
`success := false` while the newly acquired access and refresh tokens
remain in durable storage: credential storage is not rolled back when
the operation reports failure. -/
theorem tokens_kept_on_failed_status (w : World) (tp : TokenPair)
    (statusResp : Resp StatusData) (pr : Resp UserProfile) (rm : Bool)
    (h : statusResp.hasData = false) :
    (login (.ok tp) statusResp pr rm w).2.success = false ∧
    (login (.ok tp) statusResp pr rm w).1.cookies.access =
      some { value := tp.access_token,
             expires := some (if rm then TOKEN_EXPIRY_DAYS_REMEMBER
                              else TOKEN_EXPIRY_DAYS_SESSION) } ∧
    (login (.ok tp) statusResp pr rm w).1.cookies.refresh =
      some { value := tp.refresh_token,
             expires := some (if rm then TOKEN_EXPIRY_DAYS_REMEMBER
                              else TOKEN_EXPIRY_DAYS_SESSION) } ∧
    (verifyOtp (.ok tp) statusResp rm w).2.success = false ∧
    (verifyOtp (.ok tp) statusResp rm w).1.cookies.access =
      some { value := tp.access_token,
             expires := some (if rm then TOKEN_EXPIRY_DAYS_REMEMBER
                              else TOKEN_EXPIRY_DAYS_SESSION) } ∧
    (verifyOtp (.ok tp) statusResp rm w).1.cookies.refresh =
      some { value := tp.refresh_token,
             expires := some (if rm then TOKEN_EXPIRY_DAYS_REMEMBER
                              else TOKEN_EXPIRY_DAYS_SESSION) } := by
  cases statusResp with
  | ok d => simp [Resp.hasData] at h
  | err e => simp [login, verifyOtp, pushCall]
  | nodata => simp [login, verifyOtp, pushCall]

theorem tokens_kept_on_failed_status_witness :
    (login (.ok { access_token := "a1", refresh_token := "r1" }) (.err authErr)
        .nodata false (startWorld {})).2.success = false ∧
    (login (.ok { access_token := "a1", refresh_token := "r1" }) (.err authErr)
        .nodata false (startWorld {})).1.cookies.access =
      some { value := "a1", expires := some TOKEN_EXPIRY_DAYS_SESSION } := by
  have h := tokens_kept_on_failed_status (startWorld {})
    { access_token := "a1", refresh_token := "r1" } (.err authErr) .nodata false rfl
  exact ⟨h.1, h.2.1⟩

/-- Claim C6 counterexample: calling the store's `signup` directly with
both required consents false still performs the network call — the false
consent booleans are sent to the backend — and with a backend that
accepts the registration the operation even returns `success := true`,
not `success := false`. -/
theorem signup_sends_false_consents_cex :
    (signup (.ok { user_id := "u1" })
      { privacy := false, dataProcessing := false, marketing := some false }
      (startWorld {})).2.success = true ∧
    (signup (.ok { user_id := "u1" })
      { privacy := false, dataProcessing := false, marketing := some false }
      (startWorld {})).1.trace =
      [ApiCall.signupCall false false (some false)] :=
  ⟨rfl, rfl⟩

/-- Claim C6 (amended): the consent check lives in the signup page, not
in the store operation: `SignupPage.handleSubmit` runs `validateForm`
first, and when `privacy` or `dataProcessing` consent is false it
returns without invoking the store's `signup`, so no network call is
made and the invalid consents are never sent to the backend.  The
store's `signup` itself performs no consent validation and forwards
whatever consents it is given. -/
theorem handleSubmit_blocks_missing_consents (resp : Resp SignupData)
    (f : SignupFormData) (w : World)
    (h : f.privacyConsent = false ∨ f.dataProcessingConsent = false) :
    handleSubmit resp f w = (w, none) := by
  have hne : (validateForm f).noErrors = false := by
    rcases h with h | h <;> simp [FormErrors.noErrors, validateForm, h]
  simp [handleSubmit, hne]

theorem handleSubmit_blocks_missing_consents_witness :
    handleSubmit .nodata fNoConsents (startWorld {}) = (startWorld {}, none) :=
  handleSubmit_blocks_missing_consents .nodata fNoConsents (startWorld {})
    (Or.inl rfl)

/-- Claim C1 counterexample: with a backend that answers the status
query with an auth error twice, each followed by a successful token
refresh, a single `checkAuth()` execution performs TWO `refreshAuth()`
exchanges (and two retried `checkAuth` levels), not exactly one: the
recursion depth is not bounded by 1. -/
theorem checkAuth_two_refreshes_cex :
    (checkAuth [badRound, badRound, okRound] wTokens).map
      (fun v => refreshCallsCount v.trace) = some 2 :=
  rfl

/-- Mapping a function over an option preserves `isSome`. -/
theorem isSomeMapAux {α β : Type} (f : α → β) (o : Option α) :
    (Option.map f o).isSome = o.isSome := by cases o <;> rfl

/-- The second component of `refreshAuth` is `false` whenever the
refresh response carries no data. -/
theorem refreshAuth_snd_false_of_no_data (rr : Resp TokenPair)
    (rv : Resp Unit) (w : World) (h : rr.hasData = false) :
    (refreshAuth rr rv w).2 = false := by
  rcases hrc : w.cookies.refresh with _ | c <;>
    rcases rr with tp | e | _ <;>
    simp_all [refreshAuth, Resp.hasData]

/-- Claim C1 (amended): on an auth error, `checkAuth` attempts one
`refreshAuth()` followed by one retried `checkAuth()` at each recursion
level; the depth is bounded not by 1 but by the number of consecutive
rounds in which the status query errors and the refresh succeeds, so
`checkAuth` is guaranteed to terminate only for backend response
sequences containing a round that breaks that pattern. -/
theorem checkAuth_terminates_of_stopping_round (rounds : List Round)
    (w : World) (h : ∃ r ∈ rounds, roundContinues r = false) :
    ∃ v, checkAuth rounds w = some v := by
  rw [← Option.isSome_iff_exists]
  induction rounds generalizing w with
  | nil => simp at h
  | cons r rest ih =>
    unfold checkAuth
    dsimp only
    rcases hac : w.cookies.access with _ | a
    · rw [show (setLoading true w).cookies.access = none from hac]
      simp
    · rw [show (setLoading true w).cookies.access = some a from hac]
      rcases hs : r.status with d | e | _
      · simp [hs]
      · simp only [hs]
        rcases hrf : r.refresh with tp | e2 | _
        · rcases hrc : (pushCall ApiCall.status (setLoading true w)).cookies.refresh
            with _ | c
          · simp [refreshAuth, hrc]
          · have h' : ∃ r' ∈ rest, roundContinues r' = false := by
              rcases h with ⟨r', hr', hfalse⟩
              rcases List.mem_cons.mp hr' with rfl | hmem
              · rw [show roundContinues r' = true by
                  simp [roundContinues, hs, hrf]] at hfalse
                cases hfalse
              · exact ⟨r', hmem, hfalse⟩
            simp only [refreshAuth, hrc, hrf]
            rw [if_pos trivial]
            rw [isSomeMapAux]
            exact ih _ h'
        · have hsnd := refreshAuth_snd_false_of_no_data r.refresh r.revoke
            (pushCall ApiCall.status (setLoading true w)) (by rw [hrf]; rfl)
          rw [hrf] at hsnd
          simp [hsnd]
        · have hsnd := refreshAuth_snd_false_of_no_data r.refresh r.revoke
            (pushCall ApiCall.status (setLoading true w)) (by rw [hrf]; rfl)
          rw [hrf] at hsnd
          simp [hsnd]
      · simp [hs]

theorem checkAuth_terminates_of_stopping_round_witness :
    ∃ v, checkAuth [okRound] wTokens = some v :=
  checkAuth_terminates_of_stopping_round [okRound] wTokens
    ⟨okRound, by simp, rfl⟩

/-- A successful `login` leaves the status-reported user and onboarding
flag in the session and the fresh access token in storage. -/
theorem login_ok_fields (w : World) (tp : TokenPair) (d : StatusData)
    (pr : Resp UserProfile) (rm : Bool) :
    (login (.ok tp) (.ok d) pr rm w).2.success = true ∧
    (login (.ok tp) (.ok d) pr rm w).1.session.user = some d.user ∧
    (login (.ok tp) (.ok d) pr rm w).1.session.hasCompletedOnboarding =
      d.onboarding_completed ∧
    (login (.ok tp) (.ok d) pr rm w).1.cookies.access =
      some { value := tp.access_token,
             expires := some (if rm then TOKEN_EXPIRY_DAYS_REMEMBER
                              else TOKEN_EXPIRY_DAYS_SESSION) } := by
  cases hoc : d.onboarding_completed <;> rcases pr with p | e | _ <;>
    simp [login, pushCall, hoc]

/-- Running `checkAuth` on a round whose status query succeeds terminates at
that level and stores the status-reported user and onboarding flag. -/
theorem checkAuth_ok_status (rest : List Round) (r : Round) (d : StatusData)
    (w : World) (a : Cookie) (hs : r.status = Resp.ok d)
    (ha : w.cookies.access = some a) :
    ∃ v, checkAuth (r :: rest) w = some v ∧
      v.session.user = some d.user ∧
      v.session.hasCompletedOnboarding = d.onboarding_completed := by
  unfold checkAuth
  dsimp only
  rw [show (setLoading true w).cookies.access = some a from ha, hs]
  dsimp only
  cases hoc : d.onboarding_completed
  · exact ⟨_, rfl, rfl, rfl⟩
  · cases hp : r.profile
    · exact ⟨_, rfl, rfl, rfl⟩
    · exact ⟨_, rfl, rfl, rfl⟩
    · exact ⟨_, rfl, rfl, rfl⟩

/-- Claim C8: with a status endpoint that is deterministic during the
run (both queries answer `d`), a successful `login` followed
immediately by `checkAuth()` yields the same `user` and
`hasCompletedOnboarding` values as the login alone: the reconciliation
is idempotent. -/
theorem login_checkAuth_idempotent (w : World) (tp : TokenPair)
    (d : StatusData) (pr1 pr2 : Resp UserProfile) (rf : Resp TokenPair)
    (rv : Resp Unit) (rm : Bool) (rest : List Round) :
    (login (.ok tp) (.ok d) pr1 rm w).2.success = true ∧
    ∃ v, checkAuth (Round.mk (.ok d) rf rv pr2 :: rest)
        (login (.ok tp) (.ok d) pr1 rm w).1 = some v ∧
      v.session.user = (login (.ok tp) (.ok d) pr1 rm w).1.session.user ∧
      v.session.hasCompletedOnboarding =
        (login (.ok tp) (.ok d) pr1 rm w).1.session.hasCompletedOnboarding := by
  obtain ⟨hsucc, hu, hh, hac⟩ := login_ok_fields w tp d pr1 rm
  obtain ⟨v, hv, hvu, hvh⟩ := checkAuth_ok_status rest
    (Round.mk (.ok d) rf rv pr2) d (login (.ok tp) (.ok d) pr1 rm w).1 _ rfl hac
  exact ⟨hsucc, v, hv, by rw [hvu, hu], by rw [hvh, hh]⟩

/-- Lemma: `setUser` establishes the invariant unconditionally. -/
theorem authInv_setUser (u : Option User) (w : World) : authInv (setUser u w) := by
  simp [authInv, setUser]

/-- Lemma: `setProfile` does not touch `user` or `isAuthenticated`. -/
theorem authInv_setProfile (p : Option UserProfile) (w : World)
    (h : authInv w) : authInv (setProfile p w) := h

/-- Lemma: `setLoading` does not touch `user` or `isAuthenticated`. -/
theorem authInv_setLoading (b : Bool) (w : World) (h : authInv w) :
    authInv (setLoading b w) := h

/-- Lemma: `logout` establishes the invariant unconditionally. -/
theorem authInv_logout (rv : Resp Unit) (w : World) : authInv (logout rv w) := by
  rcases hr : w.cookies.refresh with _ | c <;>
    simp [authInv, logout, pushCall, hr]

/-- Lemma: `refreshAuth` preserves the invariant. -/
theorem authInv_refreshAuth (rr : Resp TokenPair) (rv : Resp Unit)
    (w : World) (h : authInv w) : authInv (refreshAuth rr rv w).1 := by
  rcases hr : w.cookies.refresh with _ | c
  · simpa [refreshAuth, hr] using h
  · rcases rr with tp | e | _
    · simpa [refreshAuth, hr, authInv, pushCall] using h
    · simpa [refreshAuth, hr] using
        authInv_logout rv (pushCall (ApiCall.refreshCall c.value) w)
    · simpa [refreshAuth, hr] using
        authInv_logout rv (pushCall (ApiCall.refreshCall c.value) w)

/-- Lemma: `signup` does not touch the session. -/
theorem authInv_signup (resp : Resp SignupData) (consents : Consents)
    (w : World) (h : authInv w) : authInv (signup resp consents w).1 := by
  rcases resp with d | e | _ <;> simpa [signup, authInv, pushCall] using h

/-- Lemma: `login` preserves the invariant. -/
theorem authInv_login (r1 : Resp TokenPair) (r2 : Resp StatusData)
    (r3 : Resp UserProfile) (rm : Bool) (w : World) (h : authInv w) :
    authInv (login r1 r2 r3 rm w).1 := by
  rcases r1 with tp | e | _
  · rcases r2 with sd | e2 | _
    · cases hoc : sd.onboarding_completed <;> rcases r3 with p | e3 | _ <;>
        simp [login, authInv, pushCall, hoc]
    · simpa [login, authInv, pushCall] using h
    · simpa [login, authInv, pushCall] using h
  · simpa [login, authInv, pushCall] using h
  · simpa [login, authInv, pushCall] using h

/-- Lemma: `verifyOtp` preserves the invariant. -/
theorem authInv_verifyOtp (r1 : Resp TokenPair) (r2 : Resp StatusData)
    (rm : Bool) (w : World) (h : authInv w) :
    authInv (verifyOtp r1 r2 rm w).1 := by
  rcases r1 with tp | e | _
  · rcases r2 with sd | e2 | _
    · simp [verifyOtp, authInv, pushCall]
    · simpa [verifyOtp, authInv, pushCall] using h
    · simpa [verifyOtp, authInv, pushCall] using h
  · simpa [verifyOtp, authInv, pushCall] using h
  · simpa [verifyOtp, authInv, pushCall] using h

/-- Lemma: `checkAuth` preserves the invariant, by induction over the rounds. -/
theorem authInv_checkAuth (rounds : List Round) :
    ∀ w w', checkAuth rounds w = some w' → authInv w → authInv w' := by
  induction rounds with
  | nil =>
    intro w w' he h
    unfold checkAuth at he
    dsimp only at he
    rcases hac : w.cookies.access with _ | a
    · rw [show (setLoading true w).cookies.access = none from hac] at he
      dsimp only at he
      simp only [Option.some.injEq] at he
      subst he
      exact h
    · rw [show (setLoading true w).cookies.access = some a from hac] at he
      exact Option.noConfusion he
  | cons r rest ih =>
    intro w w' he h
    unfold checkAuth at he
    dsimp only at he
    rcases hac : w.cookies.access with _ | a
    · rw [show (setLoading true w).cookies.access = none from hac] at he
      dsimp only at he
      simp only [Option.some.injEq] at he
      subst he
      exact h
    · rw [show (setLoading true w).cookies.access = some a from hac] at he
      dsimp only at he
      rcases hs : r.status with d | e | _
      · rw [hs] at he
        dsimp only at he
        cases hoc : d.onboarding_completed <;> rw [hoc] at he
        · simp only [Bool.false_eq_true, if_false, Option.map_some',
            Option.some.injEq] at he
          subst he
          rfl
        · cases hp : r.profile <;> rw [hp] at he <;>
            simp only [if_true, Option.map_some', Option.some.injEq] at he <;>
            subst he <;> rfl
      · rw [hs] at he
        dsimp only at he
        have hinv1 : authInv (refreshAuth r.refresh r.revoke
            (pushCall ApiCall.status (setLoading true w))).1 :=
          authInv_refreshAuth r.refresh r.revoke _ h
        by_cases hp2 : (refreshAuth r.refresh r.revoke
            (pushCall ApiCall.status (setLoading true w))).2 = true
        · rw [if_pos hp2] at he
          rcases Option.map_eq_some'.mp he with ⟨v, hv, hw'⟩
          subst hw'
          exact ih _ v hv hinv1
        · rw [if_neg hp2] at he
          simp only [Option.map_some', Option.some.injEq] at he
          subst he
          exact hinv1
      · rw [hs] at he
        dsimp only at he
        simp only [Option.map_some', Option.some.injEq] at he
        subst he
        exact h

/-- Claim C5: in every session state reachable from the initial state by
any sequence of store operations under any backend responses,
`isAuthenticated` is true if and only if `user` is non-null. -/
theorem auth_iff_user_nonnull (w : World) (h : Reaches w) :
    w.session.isAuthenticated = true ↔ w.session.user ≠ none := by
  have hinv : authInv w := by
    induction h with
    | init cs => rfl
    | step hr hs ih =>
      cases hs with
      | setUserStep u v => exact authInv_setUser _ _
      | setProfileStep p v => exact authInv_setProfile _ _ ih
      | setLoadingStep b v => exact authInv_setLoading _ _ ih
      | loginStep r1 r2 r3 rm v => exact authInv_login _ _ _ _ _ ih
      | signupStep resp consents v => exact authInv_signup _ _ _ ih
      | verifyOtpStep r1 r2 rm v => exact authInv_verifyOtp _ _ _ _ ih
      | logoutStep rv v => exact authInv_logout _ _
      | refreshAuthStep rr rv v => exact authInv_refreshAuth _ _ _ ih
      | checkAuthStep rounds v v' hca => exact authInv_checkAuth _ _ _ hca ih
  rw [hinv]
  exact Option.isSome_iff_ne_none

theorem auth_iff_user_nonnull_witness :
    ((setUser (some u0) (startWorld {})).session.isAuthenticated = true ↔
      (setUser (some u0) (startWorld {})).session.user ≠ none) :=
  auth_iff_user_nonnull _
    (Reaches.step (Reaches.init {}) (Step.setUserStep (some u0) (startWorld {})))

end SFC
